import Mathlib

/-!
Verification development for the DA-VISUAL renewable-energy dashboard.

The repository contains two near-duplicate Streamlit scripts:
`src/app.py` (the final version, embedded in namespace `DAV.App`) and
`src/.ipynb_checkpoints/app.py` (the checkpoint draft, embedded in
namespace `DAV.Ckpt`).  Both share a `load_data` routine (embedded once in
namespace `DAV`, since the two copies are textually identical there) and
derive several filtered/aggregated views from the loaded table.

Modelling conventions:
* a pandas DataFrame is a `Table`: a list of present columns plus a list
  of rows, each row holding `Option`-valued cells (`none` models NaN);
* a raw CSV cell that `pd.to_numeric` must parse is a `RawCell`: either
  `missing` (an empty cell, NaN), `num q` (text parsing to the number
  `q`), or `junk` (unparseable text) — this abstracts only the string
  parser itself, not the coerce/fillna/drop logic under test;
* floats are modelled as rationals `ℚ`; float rounding plays no role in
  any of the properties considered;
* `pd.DataFrame.nlargest n col` (with the default `keep = first`) is
  modelled as: stable-sort descending by the column, take `n` — pandas
  implements it with a stable (mergesort) argsort, so ties keep input
  order and prefer earlier rows;
* `st.stop` after `st.error` is a fatal abort; `load_data` therefore
  returns `Except LoadError Table`.
-/

namespace DAV

/-- The column names that occur in the scripts. -/
inductive Col where
  | Entity
  | Code
  | Year
  | Solar_GW
  | Wind_GW
  | Hydro_GW
  | Total_GW
  | Population
  | GDP_per_Capita
  | Capacity_per_Capita_kW
  | CountryNameX
  | CountryNameY
  | Country
deriving DecidableEq

/-- A raw CSV cell fed to `pd.to_numeric`: empty (NaN), numeric text, or
unparseable text. -/
inductive RawCell where
  | missing
  | num (q : ℚ)
  | junk
deriving DecidableEq

/-- One raw CSV row.  `Entity` and `Code` are string columns (`none` is a
missing cell); the other cells go through `pd.to_numeric`. -/
structure RawRow where
  entity : Option String
  code : Option String
  year : RawCell
  solar : RawCell
  wind : RawCell
  hydro : RawCell
  total : RawCell
  pop : RawCell
  gdp : RawCell
  cap : RawCell
deriving DecidableEq

/-- A raw CSV file: its header (the set of present columns) and its rows.
A `RawRow` field is only meaningful when the matching column is present in
`cols`. -/
structure CSV where
  cols : List Col
  rows : List RawRow
deriving DecidableEq

/-- A cleaned row of the loaded table.  `none` models NaN. -/
structure Row where
  entity : Option String
  code : Option String
  year : Option Int
  solar : Option ℚ
  wind : Option ℚ
  hydro : Option ℚ
  total : Option ℚ
  pop : Option ℚ
  gdp : Option ℚ
  cap : Option ℚ
deriving DecidableEq

/-- The loaded table: present columns plus cleaned rows. -/
structure Table where
  cols : List Col
  rows : List Row
deriving DecidableEq

/-- The fatal outcomes of `load_data`: `FileNotFoundError`, the explicit
`Year`-column check, and the `KeyError` that `dropna(subset = ...)` raises
when `Entity` or `Code` is absent (caught by the generic handler). -/
inductive LoadError where
  | fileNotFound
  | yearColMissing
  | dropKeyError
deriving DecidableEq

/-- `pd.to_numeric(cell, errors = coerce)`: numeric text parses, anything
else becomes NaN. -/
def toNumericCell : RawCell → Option ℚ
  | .num q => some q
  | _ => none

/-- numpy `astype(int)` on a float: truncation toward zero. -/
def ratTrunc (q : ℚ) : Int := Int.tdiv q.num (q.den : Int)

/-- The `Year` pipeline of `load_data`:
`pd.to_numeric(df.Year, errors = coerce).fillna(0).astype(int)`.
The `fillna 0` step means the result is never missing. -/
def parseYearCell (c : RawCell) : Option Int :=
  some (ratTrunc ((toNumericCell c).getD 0))

/-- Parsing of one numeric column cell: `to_numeric` when the column is
present in the CSV, no data otherwise. -/
def numCol (cols : List Col) (c : Col) (cell : RawCell) : Option ℚ :=
  if c ∈ cols then toNumericCell cell else none

/-- Cleaning of one raw row (the Year coercion plus the numeric-column
coercions of `load_data`). -/
def parseRow (cols : List Col) (r : RawRow) : Row :=
  { entity := r.entity
    code := r.code
    year := parseYearCell r.year
    solar := numCol cols .Solar_GW r.solar
    wind := numCol cols .Wind_GW r.wind
    hydro := numCol cols .Hydro_GW r.hydro
    total := numCol cols .Total_GW r.total
    pop := numCol cols .Population r.pop
    gdp := numCol cols .GDP_per_Capita r.gdp
    cap := numCol cols .Capacity_per_Capita_kW r.cap }

/-- `df.drop(columns = [Country Name_x, Country Name_y, Country],
errors = ignore)`. -/
def dropLegacy (cols : List Col) : List Col :=
  cols.filter fun c =>
    !(c == Col.CountryNameX) && !(c == Col.CountryNameY) && !(c == Col.Country)

/-- The predicate of `df.dropna(subset = [Entity, Code, Year])`: the row
is kept when all three identifier cells are non-missing. -/
def keepRow (r : Row) : Bool :=
  r.entity.isSome && r.code.isSome && r.year.isSome

/-- `load_data` of both scripts (the two copies are textually identical
here).  Input `none` models an absent CSV file (`FileNotFoundError`).
Order of operations follows the source: Year-column check, Year coercion
with `fillna(0).astype(int)`, numeric-column coercions, legacy-column
drop, row drop on missing `Entity`/`Code`/`Year` (a `KeyError` — caught
as a fatal generic exception — when `Entity` or `Code` is absent). -/
def load_data (input : Option CSV) : Except LoadError Table :=
  match input with
  | none => .error .fileNotFound
  | some csv =>
    if Col.Year ∈ csv.cols then
      let parsed := csv.rows.map (parseRow csv.cols)
      let cols2 := dropLegacy csv.cols
      if Col.Entity ∈ cols2 ∧ Col.Code ∈ cols2 then
        .ok { cols := cols2, rows := parsed.filter keepRow }
      else
        .error .dropKeyError
    else
      .error .yearColMissing

/-! ### A stable descending sort, modelling `nlargest` and `sorted`

`insertD k x l` inserts `x` into the (descending-sorted) list `l` strictly
before the first element whose key is smaller than `k x`; elements with an
equal key therefore stay in front of `x`.  `sortD` feeds the input in
order through `insertD`, which yields a stable descending sort: earlier
input rows come first among equal keys — the tie behavior of pandas
`nlargest` with `keep = first`. -/

def insertD {α : Type} (k : α → ℚ) (x : α) : List α → List α
  | [] => [x]
  | y :: ys => if k y < k x then x :: y :: ys else y :: insertD k x ys

def sortD {α : Type} (k : α → ℚ) (l : List α) : List α :=
  l.foldl (fun acc x => insertD k x acc) []

/-- `nlargest n col` (default `keep = first`): stable descending sort by
the column, then take the first `n`. -/
def nlargest {α : Type} (n : Nat) (k : α → ℚ) (l : List α) : List α :=
  (sortD k l).take n

/-- The descending-order relation used for sortedness statements. -/
def keyGE {α : Type} (k : α → ℚ) (a b : α) : Prop := k b ≤ k a

/-! ### An ascending sort for integers, modelling Python `sorted` -/

/-- Python `sorted` on a list of integers, realised through the stable
descending sort with a negated key. -/
def sortAsc (l : List Int) : List Int :=
  sortD (fun y : Int => (-y : ℚ)) l

/-! ### Shared helpers of the render pipelines -/

/-- Projection of a row onto a numeric column. -/
def colVal (r : Row) : Col → Option ℚ
  | .Solar_GW => r.solar
  | .Wind_GW => r.wind
  | .Hydro_GW => r.hydro
  | .Total_GW => r.total
  | .Population => r.pop
  | .GDP_per_Capita => r.gdp
  | .Capacity_per_Capita_kW => r.cap
  | _ => none

/-- pandas `Series.get(col, 0)` on the matched row: the default `0`
applies only when the label is absent from the Series index (i.e. the
column is absent from the table); a present label returns the stored
value, even when that value is NaN. -/
def seriesGet (t : Table) (r : Row) (c : Col) : Option ℚ :=
  if c ∈ t.cols then colVal r c else some 0

/-- The pandas comparison `v > 0`: NaN compares false. -/
def optPos : Option ℚ → Bool
  | some q => decide (0 < q)
  | none => false

/-- pandas `Series.sum()` (default `skipna = True`, `min_count = 0`):
NaN entries contribute nothing, an all-NaN or empty column sums to 0. -/
def pandasSum (l : List (Option ℚ)) : ℚ :=
  l.foldr (fun a s => a.getD 0 + s) 0

/-- Python built-in `sum` over floats: a NaN operand makes the result
NaN. -/
def pySum (l : List (Option ℚ)) : Option ℚ :=
  l.foldl
    (fun s a =>
      match s, a with
      | some x, some y => some (x + y)
      | _, _ => none)
    (some 0)

/-- The filter `df.Entity != "World"`: a NaN entity also compares
unequal, hence true. -/
def notWorld (r : Row) : Bool := decide (¬ r.entity = some "World")

/-- The ranking key `Total_GW` (rows reaching `nlargest` have a
non-missing value; the default only pads the type). -/
def keyTotal (r : Row) : ℚ := r.total.getD 0

/-- The ranking key `Capacity_per_Capita_kW`. -/
def keyCap (r : Row) : ℚ := r.cap.getD 0

/-- The five columns read by the metric cards, in display order. -/
def metricCols : List Col :=
  [.Solar_GW, .Wind_GW, .Hydro_GW, .Total_GW, .Capacity_per_Capita_kW]

/-- Lexicographic comparison of character lists by code point (the
ordering pandas uses on string keys). -/
def charsLt : List Char → List Char → Bool
  | [], [] => false
  | [], _ :: _ => true
  | _ :: _, [] => false
  | a :: as, b :: bs =>
    if a.toNat < b.toNat then true
    else if b.toNat < a.toNat then false
    else charsLt as bs

/-- Strict lexicographic order on strings. -/
def strLt (s t : String) : Bool := charsLt s.data t.data

/-- Lexicographic order on `groupby([Entity, Year])` keys. -/
def pairLeLex (a b : String × Int) : Bool :=
  strLt a.1 b.1 || (decide (a.1 = b.1) && decide (a.2 ≤ b.2))

def insertPair (x : String × Int) :
    List (String × Int) → List (String × Int)
  | [] => [x]
  | y :: ys => if pairLeLex x y then x :: y :: ys else y :: insertPair x ys

/-- Ascending sort of `groupby` keys (pandas sorts group keys). -/
def sortPairs (l : List (String × Int)) : List (String × Int) :=
  l.foldr insertPair []

end DAV

namespace DAV.App

/-! Views of the final script `src/app.py`, in source order. -/

/-- `df[(df.Year == selected_year) & (df.Entity == selected_country)]`. -/
def filtered_country_data (t : Table) (y : Int) (c : String) : List Row :=
  t.rows.filter fun r => decide (r.year = some y) && decide (r.entity = some c)

/-- `filtered_country_data.iloc[0]` guarded by the emptiness check. -/
def country_row (t : Table) (y : Int) (c : String) : Option Row :=
  (filtered_country_data t y c).head?

/-- The five metric-card values `country_row.get(col, 0)` in display
order: Solar, Wind, Hydro, Total, per-capita. -/
def metricValues (t : Table) (r : Row) : List (Option ℚ) :=
  [seriesGet t r .Solar_GW, seriesGet t r .Wind_GW, seriesGet t r .Hydro_GW,
   seriesGet t r .Total_GW, seriesGet t r .Capacity_per_Capita_kW]

/-- The `mix_data` dictionary, melted to (Source, Capacity_GW) records. -/
def mix_data (t : Table) (r : Row) : List (String × Option ℚ) :=
  [("Solar (GW)", seriesGet t r .Solar_GW),
   ("Wind (GW)", seriesGet t r .Wind_GW),
   ("Hydro (GW)", seriesGet t r .Hydro_GW)]

/-- `mix_df = mix_df[mix_df.Capacity_GW > 0]` (NaN compares false). -/
def mix_df (t : Table) (r : Row) : List (String × Option ℚ) :=
  (mix_data t r).filter fun p => optPos p.2

/-- The pie chart renders when `not mix_df.empty and
mix_df.Capacity_GW.sum() > 0` (a pandas, NaN-skipping sum). -/
def mixChartShown (t : Table) (r : Row) : Bool :=
  !(mix_df t r).isEmpty && decide (0 < pandasSum ((mix_df t r).map Prod.snd))

/-- The `st.info` fallback of the mix chart (the `else` branch). -/
def mixInfoShown (t : Table) (r : Row) : Bool := !(mixChartShown t r)

/-- `df[(df.Year == y) & (df.Entity != "World")].dropna(subset =
[Total_GW, Code])`. -/
def map_data (t : Table) (y : Int) : List Row :=
  t.rows.filter fun r =>
    decide (r.year = some y) && notWorld r && r.total.isSome && r.code.isSome

/-- `df[df.Entity != "World"]`. -/
def nonWorldRows (t : Table) : List Row := t.rows.filter notWorld

/-- The sorted distinct group keys of `groupby(Year)` (NaN keys are
dropped by groupby; `Year` is integral after loading). -/
def trendYears (t : Table) : List Int :=
  sortAsc ((nonWorldRows t).filterMap fun r => r.year).dedup

/-- The rows of one `groupby(Year)` group. -/
def trendGroup (t : Table) (y : Int) : List Row :=
  (nonWorldRows t).filter fun r => decide (r.year = some y)

/-- `df[df.Entity != "World"].groupby(Year)[[Solar_GW, Wind_GW,
Hydro_GW]].sum()`: per year, the NaN-skipping column sums. -/
def global_trend_data (t : Table) : List (Int × ℚ × ℚ × ℚ) :=
  (trendYears t).map fun y =>
    (y,
     pandasSum ((trendGroup t y).map fun r => r.solar),
     pandasSum ((trendGroup t y).map fun r => r.wind),
     pandasSum ((trendGroup t y).map fun r => r.hydro))

/-- The sorted distinct keys of `groupby([Entity, Year])` (rows with a
NaN entity are dropped by groupby). -/
def entityYearKeys (t : Table) : List (String × Int) :=
  sortPairs
    ((t.rows.filterMap fun r =>
        match r.entity, r.year with
        | some e, some yy => some (e, yy)
        | _, _ => none)).dedup

/-- `df.groupby([Entity, Year])[Total_GW].sum().reset_index()`. -/
def country_total_renewable (t : Table) : List (String × Int × ℚ) :=
  (entityYearKeys t).map fun p =>
    (p.1, p.2,
     pandasSum
       ((t.rows.filter fun r =>
           decide (r.entity = some p.1) && decide (r.year = some p.2)).map
         fun r => r.total))

/-- The `Entity != "World"` filter on the grouped totals. -/
def ctrNonWorld (t : Table) : List (String × Int × ℚ) :=
  (country_total_renewable t).filter fun x => decide (¬ x.1 = "World")

/-- `country_total_renewable[country_total_renewable.Year ==
selected_year]`.  The subsequent `to_numeric(...).fillna(0)` is the
identity here: the grouped sums are numeric and non-missing. -/
def latest_year_data (t : Table) (y : Int) : List (String × Int × ℚ) :=
  (ctrNonWorld t).filter fun x => decide (x.2.1 = y)

/-- `latest_year_data.nlargest(5, Total_GW).Entity.tolist()`. -/
def top_5_entities (t : Table) (y : Int) : List String :=
  (nlargest 5 (fun x : String × Int × ℚ => x.2.2) (latest_year_data t y)).map
    fun x => x.1

/-- `df.Entity.isin(top_5_entities)` (a NaN entity is not in the list of
strings). -/
def inTop5 (t : Table) (y : Int) (r : Row) : Bool :=
  match r.entity with
  | some e => (top_5_entities t y).contains e
  | none => false

/-- `df[df.Entity.isin(top_5)].sort_values(by = Year)` followed by
`dropna(subset = [Total_GW])` on the copy.  The sort is modelled as a
stable ascending sort on `Year`; loaded tables have no missing years. -/
def top5_time_series (t : Table) (y : Int) : List Row :=
  (sortD (fun r : Row => -((r.year.getD 0 : Int) : ℚ))
      (t.rows.filter (inTop5 t y))).filter
    fun r => r.total.isSome

/-- `df[(df.Year == y) & (df.Entity != "World")].dropna(subset =
[GDP_per_Capita, Capacity_per_Capita_kW, Population])`. -/
def scatter_data (t : Table) (y : Int) : List Row :=
  t.rows.filter fun r =>
    decide (r.year = some y) && notWorld r && r.gdp.isSome && r.cap.isSome &&
      r.pop.isSome

/-- `df[(df.Year == 2010) & (df.Entity != "World")].dropna(subset =
[Capacity_per_Capita_kW])`. -/
def df_comp_2010 (t : Table) : List Row :=
  t.rows.filter fun r =>
    decide (r.year = some (2010 : Int)) && notWorld r && r.cap.isSome

/-- The same filter for 2023. -/
def df_comp_2023 (t : Table) : List Row :=
  t.rows.filter fun r =>
    decide (r.year = some (2023 : Int)) && notWorld r && r.cap.isSome

/-- `df_comp_2023.nlargest(10, Capacity_per_Capita_kW).Entity.tolist()`. -/
def top10_2023_entities (t : Table) : List (Option String) :=
  (nlargest 10 keyCap (df_comp_2023 t)).map fun r => r.entity

/-- `df[df.Entity.isin(top10) & df.Year.isin([2010, 2023])]`. -/
def comparison_data_raw (t : Table) : List Row :=
  t.rows.filter fun r =>
    (top10_2023_entities t).contains r.entity &&
      (decide (r.year = some (2010 : Int)) ||
        decide (r.year = some (2023 : Int)))

/-- The final script re-applies `to_numeric` to the (already numeric)
per-capita column — the identity here — then drops missing values. -/
def comparison_rows (t : Table) : List Row :=
  ((comparison_data_raw t).map fun r => { r with cap := r.cap }).filter
    fun r => r.cap.isSome

/-- The comparison view: `some rows` when the bar chart renders, `none`
when any of the guards falls into an `st.info` branch. -/
def comparisonView (t : Table) : Option (List Row) :=
  if ¬ df_comp_2010 t = [] ∧ ¬ df_comp_2023 t = [] then
    if ¬ top10_2023_entities t = [] then
      if ¬ comparison_rows t = [] then some (comparison_rows t) else none
    else none
  else none

/-! Sidebar widget bounds. -/

/-- `df.Year.dropna()` (never missing after loading, but the guard is
kept). -/
def tableYears (t : Table) : List Int := t.rows.filterMap fun r => r.year

/-- `years = sorted(df.Year.dropna().unique())`. -/
def yearsSorted (t : Table) : List Int := sortAsc (tableYears t).dedup

/-- The slider lower bound `min_value = int(min(years))` (`none` only for
an empty table, where the script would crash instead). -/
def yearMinBound (t : Table) : Option Int := (yearsSorted t).head?

/-! The full render pass, with the table state threaded through every
view.  Each pandas step either builds a new frame or mutates a fresh
`.copy()` (or, for `dropna(inplace = True)`, a frame derived from such a
copy), so every step hands the table back unchanged. -/

/-- The collected derived views of one render. -/
structure RenderOut where
  lookup : Option Row
  metrics : List (Option ℚ)
  mixSlices : List (String × Option ℚ)
  mapRows : List Row
  trend : List (Int × ℚ × ℚ × ℚ)
  rankingSeries : List Row
  scatterRows : List Row
  comparison : Option (List Row)
deriving DecidableEq

/-- Row-1 point lookup. -/
def lookupStep (t : Table) (y : Int) (c : String) : Option Row × Table :=
  (country_row t y c, t)

/-- Row-1 metric cards (skipped when the lookup is empty). -/
def metricsStep (t : Table) (lk : Option Row) : List (Option ℚ) × Table :=
  (match lk with
   | some r => metricValues t r
   | none => [],
   t)

/-- Row-1 energy-mix slices (skipped when the lookup is empty). -/
def mixStep (t : Table) (lk : Option Row) :
    List (String × Option ℚ) × Table :=
  (match lk with
   | some r => mix_df t r
   | none => [],
   t)

/-- Row-2 choropleth data. -/
def mapStep (t : Table) (y : Int) : List Row × Table := (map_data t y, t)

/-- Row-2 global trend aggregation. -/
def trendStep (t : Table) : List (Int × ℚ × ℚ × ℚ) × Table :=
  (global_trend_data t, t)

/-- Row-3 top-5 ranking and time series. -/
def rankingStep (t : Table) (y : Int) : List Row × Table :=
  (top5_time_series t y, t)

/-- Row-3 economic scatter data. -/
def scatterStep (t : Table) (y : Int) : List Row × Table :=
  (scatter_data t y, t)

/-- Row-4 historical comparison. -/
def comparisonStep (t : Table) : Option (List Row) × Table :=
  (comparisonView t, t)

/-- One complete top-to-bottom render of the final script: every view in
source order, each receiving the table left by the previous step. -/
def renderAll (t : Table) (y : Int) (c : String) : RenderOut × Table :=
  let p1 := lookupStep t y c
  let p2 := metricsStep p1.2 p1.1
  let p3 := mixStep p2.2 p1.1
  let p4 := mapStep p3.2 y
  let p5 := trendStep p4.2
  let p6 := rankingStep p5.2 y
  let p7 := scatterStep p6.2 y
  let p8 := comparisonStep p7.2
  ({ lookup := p1.1
     metrics := p2.1
     mixSlices := p3.1
     mapRows := p4.1
     trend := p5.1
     rankingSeries := p6.1
     scatterRows := p7.1
     comparison := p8.1 },
   p8.2)

end DAV.App

namespace DAV.Ckpt

/-! Views of the checkpoint script `src/.ipynb_checkpoints/app.py`, in
source order. -/

/-- `df[(df.Year == selected_year) & (df.Entity == selected_country)]`. -/
def filtered_country_data (t : Table) (y : Int) (c : String) : List Row :=
  t.rows.filter fun r => decide (r.year = some y) && decide (r.entity = some c)

/-- `filtered_country_data.iloc[0]` guarded by the emptiness check. -/
def country_row (t : Table) (y : Int) (c : String) : Option Row :=
  (filtered_country_data t y c).head?

/-- The five metric-card values `country_row.get(col, 0)` in display
order (identical columns, only the formatting of the cards differs). -/
def metricValues (t : Table) (r : Row) : List (Option ℚ) :=
  [seriesGet t r .Solar_GW, seriesGet t r .Wind_GW, seriesGet t r .Hydro_GW,
   seriesGet t r .Total_GW, seriesGet t r .Capacity_per_Capita_kW]

/-- The `mix_data` dictionary of the checkpoint (labels without units). -/
def mix_data (t : Table) (r : Row) : List (String × Option ℚ) :=
  [("Solar", seriesGet t r .Solar_GW),
   ("Wind", seriesGet t r .Wind_GW),
   ("Hydro", seriesGet t r .Hydro_GW)]

/-- The checkpoint passes all three entries to `go.Pie` unfiltered. -/
def mixSlices (t : Table) (r : Row) : List (String × Option ℚ) :=
  mix_data t r

/-- The donut chart renders when `sum(mix_data.values()) > 0` — a Python
built-in sum, so one NaN value makes the sum NaN and the test false. -/
def mixChartShown (t : Table) (r : Row) : Bool :=
  match pySum ((mix_data t r).map Prod.snd) with
  | some s => decide (0 < s)
  | none => false

/-- The `st.info` fallback of the donut chart. -/
def mixInfoShown (t : Table) (r : Row) : Bool := !(mixChartShown t r)

/-- `df[(df.Year == y) & (df.Entity != "World")].dropna(subset =
[Total_GW, Code])`. -/
def map_data (t : Table) (y : Int) : List Row :=
  t.rows.filter fun r =>
    decide (r.year = some y) && notWorld r && r.total.isSome && r.code.isSome

/-- `df[df.Entity != "World"]`. -/
def nonWorldRows (t : Table) : List Row := t.rows.filter notWorld

/-- The sorted distinct group keys of `groupby(Year)`. -/
def trendYears (t : Table) : List Int :=
  sortAsc ((nonWorldRows t).filterMap fun r => r.year).dedup

/-- The rows of one `groupby(Year)` group. -/
def trendGroup (t : Table) (y : Int) : List Row :=
  (nonWorldRows t).filter fun r => decide (r.year = some y)

/-- `df[df.Entity != "World"].groupby(Year)[[Solar_GW, Wind_GW,
Hydro_GW]].sum()` (plotted directly as three line traces). -/
def global_trend_data (t : Table) : List (Int × ℚ × ℚ × ℚ) :=
  (trendYears t).map fun y =>
    (y,
     pandasSum ((trendGroup t y).map fun r => r.solar),
     pandasSum ((trendGroup t y).map fun r => r.wind),
     pandasSum ((trendGroup t y).map fun r => r.hydro))

/-- `latest_data = df[(df.Year == y) & (df.Entity !=
"World")].dropna(subset = [Total_GW])`. -/
def latest_data (t : Table) (y : Int) : List Row :=
  t.rows.filter fun r =>
    decide (r.year = some y) && notWorld r && r.total.isSome

/-- The selection step `latest_data.nlargest(10, Total_GW)`. -/
def leaderboard_selection (t : Table) (y : Int) : List Row :=
  nlargest 10 keyTotal (latest_data t y)

/-- `top_10 = latest_data.nlargest(10, Total_GW).sort_values(Total_GW)`:
the selection re-sorted ascending for the horizontal bar layout. -/
def top_10 (t : Table) (y : Int) : List Row :=
  sortD (fun r => -(keyTotal r)) (leaderboard_selection t y)

/-- The entity column of the leaderboard bars. -/
def top10Entities (t : Table) (y : Int) : List String :=
  (top_10 t y).filterMap fun r => r.entity

/-- `df[(df.Year == y) & (df.Entity != "World")].dropna(subset =
[GDP_per_Capita, Capacity_per_Capita_kW, Population])`. -/
def scatter_data (t : Table) (y : Int) : List Row :=
  t.rows.filter fun r =>
    decide (r.year = some y) && notWorld r && r.gdp.isSome && r.cap.isSome &&
      r.pop.isSome

/-- `df[(df.Year == 2010) & (df.Entity != "World")].dropna(subset =
[Capacity_per_Capita_kW])`. -/
def df_2010 (t : Table) : List Row :=
  t.rows.filter fun r =>
    decide (r.year = some (2010 : Int)) && notWorld r && r.cap.isSome

/-- The same filter for 2023. -/
def df_2023 (t : Table) : List Row :=
  t.rows.filter fun r =>
    decide (r.year = some (2023 : Int)) && notWorld r && r.cap.isSome

/-- `df_2023.nlargest(10, Capacity_per_Capita_kW).Entity.tolist()`. -/
def top10_2023 (t : Table) : List (Option String) :=
  (nlargest 10 keyCap (df_2023 t)).map fun r => r.entity

/-- `df[df.Entity.isin(top10_2023) & df.Year.isin([2010,
2023])].dropna(subset = [Capacity_per_Capita_kW])`. -/
def comparison_rows (t : Table) : List Row :=
  (t.rows.filter fun r =>
      (top10_2023 t).contains r.entity &&
        (decide (r.year = some (2010 : Int)) ||
          decide (r.year = some (2023 : Int)))).filter
    fun r => r.cap.isSome

end DAV.Ckpt

namespace DAV

/-! ### Concrete fixtures used by the witnesses and counterexamples -/

/-- The header of a fully populated input CSV. -/
def stdCols : List Col :=
  [.Entity, .Code, .Year, .Solar_GW, .Wind_GW, .Hydro_GW, .Total_GW,
   .Population, .GDP_per_Capita, .Capacity_per_Capita_kW]

/-- An all-missing raw row, updated per fixture. -/
def rawBlank : RawRow :=
  { entity := none
    code := none
    year := .missing
    solar := .missing
    wind := .missing
    hydro := .missing
    total := .missing
    pop := .missing
    gdp := .missing
    cap := .missing }

/-- An all-missing cleaned row, updated per fixture. -/
def rowBlank : Row :=
  { entity := none
    code := none
    year := none
    solar := none
    wind := none
    hydro := none
    total := none
    pop := none
    gdp := none
    cap := none }

/-- A raw row whose `Year` cell is unparseable text. -/
def c1raw : RawRow :=
  { rawBlank with entity := some "A", code := some "AAA", year := .junk }

/-- A three-column CSV holding only `c1raw`. -/
def c1csv : CSV := { cols := [.Entity, .Code, .Year], rows := [c1raw] }

/-- The cleaned image of `c1raw`: retained, with `Year = 0`. -/
def c1row : Row :=
  { rowBlank with entity := some "A", code := some "AAA", year := some 0 }

/-- The table `load_data` builds from `c1csv`. -/
def c1table : Table := { cols := [.Entity, .Code, .Year], rows := [c1row] }

/-- A fully populated raw row whose `Solar_GW` cell is empty. -/
def c2raw : RawRow :=
  { entity := some "X"
    code := some "XXX"
    year := .num 2023
    solar := .missing
    wind := .num 3
    hydro := .num 2
    total := .num 10
    pop := .num 1
    gdp := .num 5
    cap := .num (3 / 2) }

/-- A full-header CSV holding only `c2raw`. -/
def c2csv : CSV := { cols := stdCols, rows := [c2raw] }

/-- The cleaned image of `c2raw`: `Solar_GW` is missing (NaN). -/
def c2row : Row :=
  { entity := some "X"
    code := some "XXX"
    year := some 2023
    solar := none
    wind := some 3
    hydro := some 2
    total := some 10
    pop := some 1
    gdp := some 5
    cap := some (3 / 2) }

/-- The table `load_data` builds from `c2csv`. -/
def c2table : Table := { cols := stdCols, rows := [c2row] }

/-- A row with a missing solar cell, positive wind and zero hydro — the
two scripts disagree on its energy-mix chart. -/
def c3mixRow : Row :=
  { rowBlank with
    entity := some "M"
    code := some "MMM"
    year := some 2023
    solar := none
    wind := some 5
    hydro := some 0 }

/-- A one-row table around `c3mixRow`. -/
def c3mixTable : Table := { cols := stdCols, rows := [c3mixRow] }

/-- A country row with only a total, for the ranking fixtures. -/
def totalRow (e : String) (q : ℚ) : Row :=
  { rowBlank with
    entity := some e
    code := some e
    year := some 2023
    total := some q }

/-- Six countries with distinct totals for 2023: the final script ranks
five of them, the checkpoint ten. -/
def c3rankTable : Table :=
  { cols := stdCols,
    rows := [totalRow "A" 6, totalRow "B" 5, totalRow "C" 4, totalRow "D" 3,
             totalRow "E" 2, totalRow "F" 1] }

/-- A raw row with all three identifiers present. -/
def c4raw : RawRow :=
  { rawBlank with entity := some "D", code := some "DDD", year := .num 2021 }

/-- A CSV holding `c4raw` plus an all-missing row (which the loader
drops). -/
def c4csv : CSV := { cols := [.Entity, .Code, .Year], rows := [c4raw, rawBlank] }

/-- The cleaned image of `c4raw`. -/
def c4row : Row :=
  { rowBlank with entity := some "D", code := some "DDD", year := some 2021 }

/-- The table `load_data` builds from `c4csv`. -/
def c4table : Table := { cols := [.Entity, .Code, .Year], rows := [c4row] }

/-- A CSV lacking the required `Year` column. -/
def c5csv : CSV := { cols := [.Entity, .Code], rows := [] }

/-- Fifteen countries for 2023, including a `Total_GW` tie, for the
leaderboard witness. -/
def c6table : Table :=
  { cols := stdCols,
    rows := [totalRow "A" 15, totalRow "B" 14, totalRow "C" 13,
             totalRow "D" 12, totalRow "E" 11, totalRow "F" 7,
             totalRow "G" 7, totalRow "H" 8, totalRow "I" 6,
             totalRow "J" 5, totalRow "K" 4, totalRow "L" 3,
             totalRow "M" 2, totalRow "N" 1, totalRow "O" 0] }

/-- A row with per-capita data for 2023 only. -/
def c7row : Row :=
  { rowBlank with
    entity := some "Q"
    code := some "QQQ"
    year := some 2023
    cap := some 1 }

/-- A table with 2023 per-capita data and no 2010 rows at all. -/
def c7table : Table := { cols := stdCols, rows := [c7row] }

/-- The raw rows of the `c9` CSV: an unparseable year and a negative
numeric year. -/
def c9rawJ : RawRow :=
  { rawBlank with entity := some "A", code := some "AAA", year := .junk }

def c9rawN : RawRow :=
  { rawBlank with entity := some "B", code := some "BBB", year := .num (-3) }

/-- A CSV whose parseable years are not all nonnegative. -/
def c9csv : CSV := { cols := [.Entity, .Code, .Year], rows := [c9rawJ, c9rawN] }

def c9rowJ : Row :=
  { rowBlank with entity := some "A", code := some "AAA", year := some 0 }

def c9rowN : Row :=
  { rowBlank with entity := some "B", code := some "BBB", year := some (-3) }

/-- The table `load_data` builds from `c9csv`. -/
def c9table : Table := { cols := [.Entity, .Code, .Year], rows := [c9rowJ, c9rowN] }

/-- A row with zero solar, positive wind and missing hydro. -/
def c10row : Row :=
  { rowBlank with
    entity := some "P"
    code := some "PPP"
    year := some 2023
    solar := some 0
    wind := some 5
    hydro := none }

/-- A one-row table around `c10row`. -/
def c10table : Table := { cols := stdCols, rows := [c10row] }

/-! ### Lemmas about the sorting routines -/

theorem insertD_perm {α : Type} (k : α → ℚ) (x : α) (l : List α) :
    List.Perm (insertD k x l) (x :: l) := by
  induction l with
  | nil => exact List.Perm.refl _
  | cons y ys ih =>
    unfold insertD
    by_cases h : k y < k x
    · simp [h]
    · simp only [h, if_false]
      exact (ih.cons y).trans (List.Perm.swap x y ys)

theorem sortD_perm {α : Type} (k : α → ℚ) (l : List α) :
    List.Perm (sortD k l) l := by
  have main : ∀ (l acc : List α),
      List.Perm (l.foldl (fun acc x => insertD k x acc) acc) (l ++ acc) := by
    intro l
    induction l with
    | nil => intro acc; simp
    | cons x xs ih =>
      intro acc
      have h1 := ih (insertD k x acc)
      have h2 : List.Perm (xs ++ insertD k x acc) (xs ++ (x :: acc)) :=
        (insertD_perm k x acc).append_left xs
      have h3 : List.Perm (xs ++ (x :: acc)) (x :: (xs ++ acc)) := List.perm_middle
      simpa using h1.trans (h2.trans h3)
  simpa using main l []

theorem insertD_pairwise {α : Type} (k : α → ℚ) (x : α) {l : List α}
    (h : l.Pairwise (keyGE k)) : (insertD k x l).Pairwise (keyGE k) := by
  induction l with
  | nil => simp [insertD, keyGE]
  | cons y ys ih =>
    rcases List.pairwise_cons.mp h with ⟨hy, hys⟩
    unfold insertD
    by_cases hk : k y < k x
    · simp only [hk, if_true]
      refine List.pairwise_cons.mpr ⟨?_, h⟩
      intro z hz
      rcases List.mem_cons.mp hz with rfl | hz
      · exact le_of_lt hk
      · exact le_trans (hy z hz) (le_of_lt hk)
    · simp only [hk, if_false]
      refine List.pairwise_cons.mpr ⟨?_, ih hys⟩
      intro z hz
      rcases List.mem_cons.mp ((insertD_perm k x ys).mem_iff.mp hz) with rfl | hz
      · exact le_of_not_lt hk
      · exact hy z hz

theorem sortD_pairwise {α : Type} (k : α → ℚ) (l : List α) :
    (sortD k l).Pairwise (keyGE k) := by
  have main : ∀ (l acc : List α), acc.Pairwise (keyGE k) →
      (l.foldl (fun acc x => insertD k x acc) acc).Pairwise (keyGE k) := by
    intro l
    induction l with
    | nil => intro acc h; simpa using h
    | cons x xs ih =>
      intro acc h
      exact ih (insertD k x acc) (insertD_pairwise k x h)
  exact main l [] List.Pairwise.nil

theorem filter_eq_nil_of_lt {α : Type} (k : α → ℚ) (v : ℚ) {y : α}
    {ys : List α} (h : (y :: ys).Pairwise (keyGE k)) (hy : k y < v) :
    (y :: ys).filter (fun a => k a == v) = [] := by
  rw [List.filter_eq_nil_iff]
  intro a ha
  rcases List.mem_cons.mp ha with rfl | ha
  · simp [ne_of_lt hy]
  · rcases List.pairwise_cons.mp h with ⟨hrel, _⟩
    have : k a ≤ k y := hrel a ha
    simp [ne_of_lt (lt_of_le_of_lt this hy)]

theorem insertD_filter {α : Type} (k : α → ℚ) (v : ℚ) (x : α) {l : List α}
    (h : l.Pairwise (keyGE k)) :
    (insertD k x l).filter (fun a => k a == v) =
      if k x == v then l.filter (fun a => k a == v) ++ [x]
      else l.filter (fun a => k a == v) := by
  induction l with
  | nil => by_cases hx : k x = v <;> simp [insertD, hx]
  | cons y ys ih =>
    rcases List.pairwise_cons.mp h with ⟨hy, hys⟩
    unfold insertD
    by_cases hk : k y < k x
    · simp only [hk, if_true]
      by_cases hx : k x = v
      · subst hx
        have hnil := filter_eq_nil_of_lt k (k x) h hk
        simp [List.filter_cons, hnil]
      · have hxb : (k x == v) = false := by simp [hx]
        simp [List.filter_cons, hxb]
    · simp only [hk, if_false]
      by_cases hyv : k y = v
      · have hyb : (k y == v) = true := by simp [hyv]
        by_cases hx : k x = v
        · have hxb : (k x == v) = true := by simp [hx]
          simp [List.filter_cons, hyb, hxb, ih hys]
        · have hxb : (k x == v) = false := by simp [hx]
          simp [List.filter_cons, hyb, hxb, ih hys]
      · have hyb : (k y == v) = false := by simp [hyv]
        by_cases hx : k x = v
        · have hxb : (k x == v) = true := by simp [hx]
          simp [List.filter_cons, hyb, hxb, ih hys]
        · have hxb : (k x == v) = false := by simp [hx]
          simp [List.filter_cons, hyb, hxb, ih hys]

/-- Stability of the sort: for every key value, the equal-key rows appear
in the sorted output exactly in their input order. -/
theorem sortD_filter {α : Type} (k : α → ℚ) (v : ℚ) (l : List α) :
    (sortD k l).filter (fun a => k a == v) = l.filter (fun a => k a == v) := by
  have main : ∀ (l acc : List α), acc.Pairwise (keyGE k) →
      (l.foldl (fun acc x => insertD k x acc) acc).filter (fun a => k a == v)
        = acc.filter (fun a => k a == v) ++ l.filter (fun a => k a == v) := by
    intro l
    induction l with
    | nil => intro acc _; simp
    | cons x xs ih =>
      intro acc h
      rw [List.foldl_cons, ih (insertD k x acc) (insertD_pairwise k x h)]
      rw [insertD_filter k v x h]
      by_cases hx : k x = v
      · have hxb : (k x == v) = true := by simp [hx]
        simp [List.filter_cons, hxb, List.append_assoc]
      · have hxb : (k x == v) = false := by simp [hx]
        simp [List.filter_cons, hxb]
  simpa using main l [] List.Pairwise.nil

theorem sortAsc_perm (l : List Int) : List.Perm (sortAsc l) l :=
  sortD_perm _ l

theorem sortAsc_pairwise (l : List Int) :
    (sortAsc l).Pairwise (fun a b : Int => a ≤ b) := by
  have h := sortD_pairwise (fun y : Int => (-y : ℚ)) l
  refine h.imp ?_
  intro a b hab
  have : (-(b : ℚ)) ≤ (-(a : ℚ)) := hab
  have h2 : (a : ℚ) ≤ (b : ℚ) := by linarith
  exact_mod_cast h2

theorem head_le_of_sorted {l : List Int} {m x : Int}
    (hs : l.Pairwise (fun a b : Int => a ≤ b))
    (hh : l.head? = some m) (hx : x ∈ l) : m ≤ x := by
  cases l with
  | nil => cases hx
  | cons a as =>
    have hm : m = a := by simpa using hh.symm
    subst hm
    rcases List.mem_cons.mp hx with rfl | hx
    · exact le_refl _
    · exact (List.pairwise_cons.mp hs).1 x hx

/-! ### Helper lemmas about the loader and the sums -/

theorem pandasSum_cons (a : Option ℚ) (l : List (Option ℚ)) :
    pandasSum (a :: l) = a.getD 0 + pandasSum l := rfl

theorem optPos_iff (v : Option ℚ) :
    optPos v = true ↔ ∃ q, v = some q ∧ 0 < q := by
  cases v <;> simp [optPos]

theorem pandasSum_nonneg (l : List (Option ℚ))
    (h : ∀ v ∈ l, optPos v = true) : 0 ≤ pandasSum l := by
  induction l with
  | nil => simp [pandasSum]
  | cons a as ih =>
    obtain ⟨q, rfl, hq⟩ := (optPos_iff a).mp (h a (by simp))
    have h2 : 0 ≤ pandasSum as := ih fun v hv => h v (by simp [hv])
    rw [pandasSum_cons]
    simp only [Option.getD_some]
    linarith

theorem pandasSum_pos (l : List (Option ℚ))
    (h : ∀ v ∈ l, optPos v = true) (hne : ¬ l = []) : 0 < pandasSum l := by
  cases l with
  | nil => exact absurd rfl hne
  | cons a as =>
    obtain ⟨q, rfl, hq⟩ := (optPos_iff a).mp (h a (by simp))
    have h2 : 0 ≤ pandasSum as := pandasSum_nonneg as fun v hv => h v (by simp [hv])
    rw [pandasSum_cons]
    simp only [Option.getD_some]
    linarith

theorem load_data_ok_inv {csv : CSV} {t : Table}
    (h : load_data (some csv) = .ok t) :
    Col.Year ∈ csv.cols ∧ Col.Entity ∈ dropLegacy csv.cols ∧
      Col.Code ∈ dropLegacy csv.cols ∧
      t = { cols := dropLegacy csv.cols,
            rows := (csv.rows.map (parseRow csv.cols)).filter keepRow } := by
  by_cases h1 : Col.Year ∈ csv.cols
  · by_cases h2 : Col.Entity ∈ dropLegacy csv.cols ∧ Col.Code ∈ dropLegacy csv.cols
    · refine ⟨h1, h2.1, h2.2, ?_⟩
      simp only [load_data, if_pos h1, if_pos h2] at h
      exact (Except.ok.inj h).symm
    · simp only [load_data, if_pos h1, if_neg h2] at h
      cases h
  · simp only [load_data, if_neg h1] at h
    cases h

theorem keepRow_parseRow (cols : List Col) (raw : RawRow) :
    keepRow (parseRow cols raw) = (raw.entity.isSome && raw.code.isSome) := by
  simp [keepRow, parseRow, parseYearCell]

theorem parseRow_mem_of_ok {csv : CSV} {t : Table}
    (h : load_data (some csv) = .ok t) {raw : RawRow} (hmem : raw ∈ csv.rows)
    (hent : raw.entity.isSome = true) (hcode : raw.code.isSome = true) :
    parseRow csv.cols raw ∈ t.rows := by
  obtain ⟨-, -, -, rfl⟩ := load_data_ok_inv h
  refine List.mem_filter.mpr ⟨List.mem_map_of_mem _ hmem, ?_⟩
  rw [keepRow_parseRow, hent, hcode]
  rfl

/-! ### Claim C4 -/

/-- Claim C4: for every input CSV accepted by the loader, every row of
the returned table has non-missing `Entity`, `Code` and `Year`; any row
violating this is dropped before the table is returned. -/
theorem claim_c4_identifier_invariant (input : Option CSV) (t : Table)
    (h : load_data input = .ok t) :
    ∀ r ∈ t.rows,
      r.entity.isSome = true ∧ r.code.isSome = true ∧ r.year.isSome = true := by
  intro r hr
  match input with
  | none => simp [load_data] at h
  | some csv =>
    obtain ⟨-, -, -, rfl⟩ := load_data_ok_inv h
    have hkeep := (List.mem_filter.mp hr).2
    unfold keepRow at hkeep
    simp only [Bool.and_eq_true] at hkeep
    exact ⟨hkeep.1.1, hkeep.1.2, hkeep.2⟩

/-- Witness for C4 at a concrete CSV (one valid row plus one all-missing
row that the loader drops). -/
theorem claim_c4_witness :
    c4row.entity.isSome = true ∧ c4row.code.isSome = true ∧
      c4row.year.isSome = true :=
  claim_c4_identifier_invariant (some c4csv) c4table rfl c4row (by decide)

/-! ### Claim C5 -/

/-- Claim C5: `load_data` fails fatally exactly when the file is absent,
the `Year` column is absent, or another exception occurs during load (the
`KeyError` of the row-drop step when `Entity` or `Code` is absent); a
fatal load never returns any table. -/
theorem claim_c5_fatal_exactly (input : Option CSV) :
    ((∃ e, load_data input = .error e) ↔
      (input = none ∨ ∃ csv, input = some csv ∧
        (¬ Col.Year ∈ csv.cols ∨ ¬ Col.Entity ∈ dropLegacy csv.cols ∨
          ¬ Col.Code ∈ dropLegacy csv.cols))) ∧
    (∀ t, load_data input = .ok t → ¬ ∃ e, load_data input = .error e) := by
  constructor
  · match input with
    | none =>
      constructor
      · intro _; exact Or.inl rfl
      · intro _; exact ⟨.fileNotFound, rfl⟩
    | some csv =>
      by_cases h1 : Col.Year ∈ csv.cols
      · by_cases h2 : Col.Entity ∈ dropLegacy csv.cols ∧
            Col.Code ∈ dropLegacy csv.cols
        · constructor
          · rintro ⟨e, he⟩
            simp only [load_data, if_pos h1, if_pos h2] at he
            cases he
          · rintro (h | ⟨csv2, hcsv, hbad⟩)
            · cases h
            · cases Option.some.inj hcsv
              rcases hbad with h | h | h
              · exact absurd h1 h
              · exact absurd h2.1 h
              · exact absurd h2.2 h
        · constructor
          · intro _
            refine Or.inr ⟨csv, rfl, ?_⟩
            rcases not_and_or.mp h2 with h | h
            · exact Or.inr (Or.inl h)
            · exact Or.inr (Or.inr h)
          · intro _
            exact ⟨.dropKeyError, by simp only [load_data, if_pos h1, if_neg h2]⟩
      · constructor
        · intro _; exact Or.inr ⟨csv, rfl, Or.inl h1⟩
        · intro _; exact ⟨.yearColMissing, by simp only [load_data, if_neg h1]⟩
  · rintro t hok ⟨e, he⟩
    rw [hok] at he
    cases he

/-- Witness for C5: a CSV that lacks the `Year` column is rejected. -/
theorem claim_c5_witness : ∃ e, load_data (some c5csv) = .error e :=
  (claim_c5_fatal_exactly (some c5csv)).1.mpr
    (Or.inr ⟨c5csv, rfl, Or.inl (by decide)⟩)

/-! ### Claim C1 (corrected) -/

/-- Counterexample to C1 as stated: a row whose `Year` value is
unparseable is NOT excluded by the later row-drop step — `fillna(0)` runs
before the drop, so the row survives with `Year = 0`.  The loaded table
built from `c1csv` (whose only row has `Year` text that does not parse,
with `Entity` and `Code` present) still contains that row. -/
theorem claim_c1_counterexample :
    toNumericCell c1raw.year = none ∧
      load_data (some c1csv) = .ok c1table ∧
      c1row ∈ c1table.rows ∧ c1row.year = some 0 := by
  refine ⟨rfl, rfl, by decide, rfl⟩

/-- Claim C1 as amended: the loader coerces `Year` to numeric with
unparseable values becoming 0 (e.g. `[2020, 0, 0]` from
`["2020", "bad", ""]`), and — because the fill-with-0 precedes the
row-drop — the drop step never excludes a row for its `Year`: any row
with non-missing `Entity` and `Code` is retained, an unparseable `Year`
becoming 0. -/
theorem claim_c1_amended (csv : CSV) (t : Table)
    (h : load_data (some csv) = .ok t) :
    ([RawCell.num 2020, RawCell.junk, RawCell.missing].map parseYearCell
        = [some 2020, some 0, some 0]) ∧
    (∀ raw : RawRow, toNumericCell raw.year = none →
      (parseRow csv.cols raw).year = some 0) ∧
    (∀ raw ∈ csv.rows, raw.entity.isSome = true → raw.code.isSome = true →
      parseRow csv.cols raw ∈ t.rows) := by
  refine ⟨by decide, ?_, ?_⟩
  · intro raw hjunk
    simp [parseRow, parseYearCell, hjunk, ratTrunc]
  · intro raw hmem hent hcode
    exact parseRow_mem_of_ok h hmem hent hcode

/-- Witness for C1 (amended) at `c1csv`: the junk-year row is parsed to
`Year = 0` and retained in the loaded table. -/
theorem claim_c1_witness :
    (parseRow c1csv.cols c1raw).year = some 0 ∧
      parseRow c1csv.cols c1raw ∈ c1table.rows :=
  ⟨(claim_c1_amended c1csv c1table rfl).2.1 c1raw rfl,
   (claim_c1_amended c1csv c1table rfl).2.2 c1raw (by decide) rfl rfl⟩

/-! ### Claim C2 (corrected) -/

/-- Counterexample to C2 as stated: for a matched row whose `Solar_GW`
cell is missing while the `Solar_GW` column exists, `Series.get(col, 0)`
returns the stored NaN — not 0 — so the card formats NaN rather than
`0.00`. -/
theorem claim_c2_counterexample :
    App.country_row c2table 2023 "X" = some c2row ∧
      seriesGet c2table c2row Col.Solar_GW = none ∧
      ¬ seriesGet c2table c2row Col.Solar_GW = some 0 := by
  refine ⟨rfl, rfl, by decide⟩

/-- Claim C2 as amended: the metric-card extraction reads the five
columns with `Series.get(col, 0)`, which substitutes 0 only when the
column is absent from the loaded table; when the column is present the
stored cell value is used unchanged, so a missing cell reaches the
fixed-decimal formatter as NaN. -/
theorem claim_c2_amended (input : Option CSV) (t : Table) (y : Int)
    (c : String) (r : Row) (col : Col) (_hload : load_data input = .ok t)
    (_hrow : App.country_row t y c = some r) (_hcol : col ∈ metricCols) :
    (col ∈ t.cols → seriesGet t r col = colVal r col) ∧
    (¬ col ∈ t.cols → seriesGet t r col = some 0) := by
  constructor <;> intro h <;> simp [seriesGet, h]

/-- Witness for C2 (amended) at `c2csv`: for the matched 2023 row of
country X the present-but-missing `Solar_GW` cell is passed through as
NaN. -/
theorem claim_c2_witness : seriesGet c2table c2row Col.Solar_GW = none :=
  ((claim_c2_amended (some c2csv) c2table 2023 "X" c2row Col.Solar_GW rfl rfl
      (by decide)).1 (by decide)).trans rfl

/-! ### Claim C7 -/

/-- Claim C7: whenever the year-2010 subset (`Entity` not "World",
non-missing per-capita value) is empty, the historical comparison view
takes the informational-message branch and renders no chart, regardless
of the 2023 data. -/
theorem claim_c7_comparison_empty_2010 (t : Table)
    (h : App.df_comp_2010 t = []) : App.comparisonView t = none := by
  unfold App.comparisonView
  simp [h]

/-- Witness for C7: a table with 2023 per-capita data but no 2010 rows. -/
theorem claim_c7_witness : App.comparisonView c7table = none :=
  claim_c7_comparison_empty_2010 c7table rfl

/-! ### Claim C8 -/

/-- Claim C8: one full render (lookup, metrics, mix, map, trend, ranking,
scatter, comparison) hands the cached table through every step unchanged:
the table after the render equals the table the render started from. -/
theorem claim_c8_table_unchanged (t : Table) (y : Int) (c : String) :
    (App.renderAll t y c).2 = t := rfl

/-! ### Claim C9 (corrected) -/

/-- Counterexample to C9 as stated: `c9csv` contains a row with
non-missing `Entity`/`Code` and an unparseable `Year`, yet the slider
minimum is not 0 — another row's parseable `Year` is negative, so the
minimum of the distinct years is that negative value. -/
theorem claim_c9_counterexample :
    (c9rawJ ∈ c9csv.rows ∧ c9rawJ.entity.isSome = true ∧
      c9rawJ.code.isSome = true ∧ toNumericCell c9rawJ.year = none) ∧
    load_data (some c9csv) = .ok c9table ∧
    ¬ App.yearMinBound c9table = some 0 := by
  refine ⟨⟨by decide, rfl, rfl, rfl⟩, rfl, by decide⟩

/-- Claim C9 as amended: a row with non-missing `Entity` and `Code` and
an unparseable `Year` is kept in the loaded table with `Year = 0`; the
year selector's minimum bound is therefore at most 0, and it equals 0
when every `Year` value of the table is nonnegative (in particular when
all parseable years are nonnegative). -/
theorem claim_c9_amended (csv : CSV) (t : Table) (raw : RawRow)
    (hload : load_data (some csv) = .ok t) (hmem : raw ∈ csv.rows)
    (hent : raw.entity.isSome = true) (hcode : raw.code.isSome = true)
    (hjunk : toNumericCell raw.year = none) :
    (parseRow csv.cols raw ∈ t.rows ∧ (parseRow csv.cols raw).year = some 0) ∧
    (∀ m, App.yearMinBound t = some m → m ≤ 0) ∧
    ((∀ z ∈ App.tableYears t, 0 ≤ z) → App.yearMinBound t = some 0) := by
  have hrow : parseRow csv.cols raw ∈ t.rows :=
    parseRow_mem_of_ok hload hmem hent hcode
  have hyear : (parseRow csv.cols raw).year = some 0 := by
    simp [parseRow, parseYearCell, hjunk, ratTrunc]
  have h0 : (0 : Int) ∈ App.tableYears t := by
    unfold App.tableYears
    exact List.mem_filterMap.mpr ⟨parseRow csv.cols raw, hrow, hyear⟩
  have h0s : (0 : Int) ∈ App.yearsSorted t := by
    unfold App.yearsSorted
    exact (sortAsc_perm _).mem_iff.mpr (List.mem_dedup.mpr h0)
  have hsorted : (App.yearsSorted t).Pairwise (fun a b : Int => a ≤ b) :=
    sortAsc_pairwise _
  refine ⟨⟨hrow, hyear⟩, ?_, ?_⟩
  · intro m hm
    exact head_le_of_sorted hsorted hm h0s
  · intro hpos
    cases hl : App.yearsSorted t with
    | nil => rw [hl] at h0s; cases h0s
    | cons a as =>
      have hm : App.yearMinBound t = some a := by
        unfold App.yearMinBound
        rw [hl]
        rfl
      have ha : a ≤ 0 := by
        have := head_le_of_sorted hsorted hm h0s
        exact this
      have hamem : a ∈ App.tableYears t := by
        have : a ∈ App.yearsSorted t := by rw [hl]; exact List.mem_cons_self a as
        unfold App.yearsSorted at this
        exact List.mem_dedup.mp ((sortAsc_perm _).mem_iff.mp this)
      have h0a : 0 ≤ a := hpos a hamem
      rw [hm, le_antisymm ha h0a]

/-- Witness for C9 (amended) at `c9csv` (using its junk-year row). -/
theorem claim_c9_witness :
    parseRow c9csv.cols c9rawJ ∈ c9table.rows ∧
      (parseRow c9csv.cols c9rawJ).year = some 0 :=
  (claim_c9_amended c9csv c9table c9rawJ rfl (by decide) rfl rfl rfl).1

/-! ### Claim C10 -/

/-- The chart-visibility test of the final script's mix view, in terms of
the unfiltered slice data: it is positive exactly when some source value
is strictly positive. -/
theorem mixShown_eq_any (l : List (String × Option ℚ)) :
    (!(l.filter fun p => optPos p.2).isEmpty &&
        decide (0 < pandasSum ((l.filter fun p => optPos p.2).map Prod.snd)))
        = true
      ↔ ∃ p ∈ l, optPos p.2 = true := by
  constructor
  · intro h
    simp only [Bool.and_eq_true] at h
    have h1 := h.1
    cases hf : l.filter (fun p => optPos p.2) with
    | nil => rw [hf] at h1; simp at h1
    | cons p ps =>
      have hp : p ∈ l.filter fun p => optPos p.2 := by
        rw [hf]; exact List.mem_cons_self p ps
      rcases List.mem_filter.mp hp with ⟨hl, hpos⟩
      exact ⟨p, hl, hpos⟩
  · rintro ⟨p, hl, hpos⟩
    have hp : p ∈ l.filter fun p => optPos p.2 := List.mem_filter.mpr ⟨hl, hpos⟩
    have hne : ¬ l.filter (fun p => optPos p.2) = [] := List.ne_nil_of_mem hp
    simp only [Bool.and_eq_true]
    refine ⟨?_, ?_⟩
    · simp [List.isEmpty_iff, hne]
    · refine decide_eq_true (pandasSum_pos _ ?_ ?_)
      · intro v hv
        rcases List.mem_map.mp hv with ⟨q, hq, rfl⟩
        exact (List.mem_filter.mp hq).2
      · intro hnil
        exact hne (List.map_eq_nil_iff.mp hnil)

/-- Claim C10: the energy-mix chart of the final script keeps exactly the
sources with a strictly positive value (zero, negative and missing all
excluded), and the informational message appears exactly when no source
is strictly positive. -/
theorem claim_c10_mix_strict_positive (t : Table) (r : Row) :
    (∀ s v, (s, v) ∈ App.mix_df t r ↔
        ((s, v) ∈ App.mix_data t r ∧ ∃ q, v = some q ∧ 0 < q)) ∧
    (App.mixChartShown t r = true ↔
      ∃ p ∈ App.mix_data t r, optPos p.2 = true) ∧
    (App.mixInfoShown t r = true ↔
      ∀ p ∈ App.mix_data t r, optPos p.2 = false) := by
  have hshown : App.mixChartShown t r = true ↔
      ∃ p ∈ App.mix_data t r, optPos p.2 = true :=
    mixShown_eq_any (App.mix_data t r)
  refine ⟨?_, hshown, ?_⟩
  · intro s v
    constructor
    · intro h
      rcases List.mem_filter.mp h with ⟨hmem, hpos⟩
      exact ⟨hmem, (optPos_iff v).mp hpos⟩
    · rintro ⟨hmem, hq⟩
      exact List.mem_filter.mpr ⟨hmem, (optPos_iff v).mpr hq⟩
  · unfold App.mixInfoShown
    constructor
    · intro h p hp
      have hfalse : App.mixChartShown t r = false := by
        cases hb : App.mixChartShown t r
        · rfl
        · simp [hb] at h
      cases hv : optPos p.2
      · rfl
      · exfalso
        have hc := hshown.mpr ⟨p, hp, hv⟩
        rw [hfalse] at hc
        cases hc
    · intro hall
      cases hb : App.mixChartShown t r
      · simp [hb]
      · exfalso
        rcases hshown.mp hb with ⟨p, hp, hpos⟩
        rw [hall p hp] at hpos
        cases hpos

/-- Witness for C10: in `c10table` only Wind (value 5) is positive — the
chart renders, zero solar and missing hydro being excluded. -/
theorem claim_c10_witness :
    App.mixChartShown c10table c10row = true ∧
      ("Wind (GW)", some (5 : ℚ)) ∈ App.mix_df c10table c10row ∧
      ¬ ("Solar (GW)", some (0 : ℚ)) ∈ App.mix_df c10table c10row :=
  ⟨(claim_c10_mix_strict_positive c10table c10row).2.1.mpr
      ⟨("Wind (GW)", some 5), by decide, by decide⟩,
   ((claim_c10_mix_strict_positive c10table c10row).1 "Wind (GW)"
        (some 5)).mpr ⟨by decide, 5, rfl, by decide⟩,
   fun h =>
     by
       rcases ((claim_c10_mix_strict_positive c10table c10row).1 "Solar (GW)"
           (some 0)).mp h with ⟨-, q, hq, hq2⟩
       cases Option.some.inj hq
       exact absurd hq2 (by decide)⟩

/-! ### Claim C6 -/

/-- Claim C6: the checkpoint's leaderboard selects the rows with the
chosen year, `Entity` not "World" and non-missing `Total_GW`, and keeps
exactly the top 10 of them by `Total_GW` descending: every kept row meets
the filter, the kept list is descending, it contains `min 10 n` of the
`n` candidate rows, every discarded candidate has a key no larger than
every kept row, ties are resolved stably (for every key value, kept rows
followed by discarded rows reproduce the candidates in input order), and
the subsequent ascending re-sort for the bar layout only permutes the
selection. -/
theorem claim_c6_leaderboard (t : Table) (y : Int) :
    (∀ r ∈ Ckpt.leaderboard_selection t y,
        r.year = some y ∧ ¬ r.entity = some "World" ∧ r.total.isSome = true) ∧
    (Ckpt.leaderboard_selection t y).length
        = min 10 (Ckpt.latest_data t y).length ∧
    (Ckpt.leaderboard_selection t y).Pairwise (keyGE keyTotal) ∧
    (∀ r ∈ Ckpt.leaderboard_selection t y,
      ∀ q ∈ (sortD keyTotal (Ckpt.latest_data t y)).drop 10,
        keyTotal q ≤ keyTotal r) ∧
    (∀ v : ℚ,
      (Ckpt.leaderboard_selection t y).filter (fun r => keyTotal r == v) ++
          ((sortD keyTotal (Ckpt.latest_data t y)).drop 10).filter
            (fun r => keyTotal r == v)
        = (Ckpt.latest_data t y).filter (fun r => keyTotal r == v)) ∧
    List.Perm (Ckpt.top_10 t y) (Ckpt.leaderboard_selection t y) := by
  have hperm := sortD_perm keyTotal (Ckpt.latest_data t y)
  have hpair := sortD_pairwise keyTotal (Ckpt.latest_data t y)
  have hsel : Ckpt.leaderboard_selection t y
      = (sortD keyTotal (Ckpt.latest_data t y)).take 10 := rfl
  refine ⟨?_, ?_, ?_, ?_, ?_, ?_⟩
  · intro r hr
    have hr2 : r ∈ Ckpt.latest_data t y := by
      rw [hsel] at hr
      exact hperm.mem_iff.mp (List.take_subset 10 _ hr)
    have := (List.mem_filter.mp hr2).2
    simp only [notWorld, Bool.and_eq_true, decide_eq_true_eq] at this
    exact ⟨this.1.1, this.1.2, this.2⟩
  · rw [hsel, List.length_take, hperm.length_eq]
  · rw [hsel]
    exact hpair.sublist (List.take_sublist 10 _)
  · intro r hr q hq
    have hsplit := List.take_append_drop 10 (sortD keyTotal (Ckpt.latest_data t y))
    have hpair2 : ((sortD keyTotal (Ckpt.latest_data t y)).take 10 ++
        (sortD keyTotal (Ckpt.latest_data t y)).drop 10).Pairwise
          (keyGE keyTotal) := by
      rw [hsplit]
      exact hpair
    rw [hsel] at hr
    exact (List.pairwise_append.mp hpair2).2.2 r hr q hq
  · intro v
    have hsplit := List.take_append_drop 10 (sortD keyTotal (Ckpt.latest_data t y))
    calc (Ckpt.leaderboard_selection t y).filter (fun r => keyTotal r == v) ++
          ((sortD keyTotal (Ckpt.latest_data t y)).drop 10).filter
            (fun r => keyTotal r == v)
        = ((sortD keyTotal (Ckpt.latest_data t y)).take 10 ++
            (sortD keyTotal (Ckpt.latest_data t y)).drop 10).filter
              (fun r => keyTotal r == v) := by
          rw [List.filter_append, hsel]
      _ = (sortD keyTotal (Ckpt.latest_data t y)).filter
            (fun r => keyTotal r == v) := by rw [hsplit]
      _ = (Ckpt.latest_data t y).filter (fun r => keyTotal r == v) :=
          sortD_filter keyTotal v _
  · exact sortD_perm _ _

/-- Witness for C6 at a 15-country table with one `Total_GW` tie: the
selection criteria and the 10-of-15 count, instantiated and evaluated. -/
theorem claim_c6_witness :
    (Ckpt.leaderboard_selection c6table 2023).length
        = min 10 (Ckpt.latest_data c6table 2023).length ∧
      (Ckpt.latest_data c6table 2023).length = 15 ∧
      (Ckpt.leaderboard_selection c6table 2023).length = 10 :=
  ⟨(claim_c6_leaderboard c6table 2023).2.1, by decide, by decide⟩

/-! ### Claim C3 (corrected) -/

theorem pandasSum_singleton (q : ℚ) : pandasSum [some q] = q := by
  simp [pandasSum]

/-- Counterexample to C3 as stated: the two scripts do not compute the
same derived views.  On `c3mixRow` (missing solar, wind 5, hydro 0) the
final script renders the mix chart while the checkpoint suppresses it
(its Python `sum` turns NaN-propagating); and on six countries the final
script's ranking view selects the top five entities while the checkpoint
keeps ten rows re-sorted ascending. -/
theorem claim_c3_counterexample :
    App.mixChartShown c3mixTable c3mixRow = true ∧
    Ckpt.mixChartShown c3mixTable c3mixRow = false ∧
    App.top_5_entities c3rankTable 2023 = ["A", "B", "C", "D", "E"] ∧
    Ckpt.top10Entities c3rankTable 2023 = ["F", "E", "D", "C", "B", "A"] ∧
    ¬ App.top_5_entities c3rankTable 2023
        = Ckpt.top10Entities c3rankTable 2023 := by
  have hdf : App.mix_df c3mixTable c3mixRow = [("Wind (GW)", some 5)] := by
    decide
  have hkeys : App.entityYearKeys c3rankTable
      = [("A", 2023), ("B", 2023), ("C", 2023), ("D", 2023), ("E", 2023),
         ("F", 2023)] := by decide
  have hfA : List.filter
      (fun r => decide (r.entity = some "A") && decide (r.year = some (2023 : Int)))
      c3rankTable.rows = [totalRow "A" 6] := by decide
  have hfB : List.filter
      (fun r => decide (r.entity = some "B") && decide (r.year = some (2023 : Int)))
      c3rankTable.rows = [totalRow "B" 5] := by decide
  have hfC : List.filter
      (fun r => decide (r.entity = some "C") && decide (r.year = some (2023 : Int)))
      c3rankTable.rows = [totalRow "C" 4] := by decide
  have hfD : List.filter
      (fun r => decide (r.entity = some "D") && decide (r.year = some (2023 : Int)))
      c3rankTable.rows = [totalRow "D" 3] := by decide
  have hfE : List.filter
      (fun r => decide (r.entity = some "E") && decide (r.year = some (2023 : Int)))
      c3rankTable.rows = [totalRow "E" 2] := by decide
  have hfF : List.filter
      (fun r => decide (r.entity = some "F") && decide (r.year = some (2023 : Int)))
      c3rankTable.rows = [totalRow "F" 1] := by decide
  have hctr : App.country_total_renewable c3rankTable
      = [("A", 2023, (6 : ℚ)), ("B", 2023, 5), ("C", 2023, 4), ("D", 2023, 3),
         ("E", 2023, 2), ("F", 2023, 1)] := by
    unfold App.country_total_renewable
    rw [hkeys]
    simp only [List.map_cons, List.map_nil]
    rw [hfA, hfB, hfC, hfD, hfE, hfF]
    simp [totalRow, pandasSum_singleton]
  have hl : App.latest_year_data c3rankTable 2023
      = [("A", 2023, (6 : ℚ)), ("B", 2023, 5), ("C", 2023, 4), ("D", 2023, 3),
         ("E", 2023, 2), ("F", 2023, 1)] := by
    unfold App.latest_year_data App.ctrNonWorld
    rw [hctr]
    decide
  have h5 : App.top_5_entities c3rankTable 2023 = ["A", "B", "C", "D", "E"] := by
    unfold App.top_5_entities
    rw [hl]
    decide
  have h10 : Ckpt.top10Entities c3rankTable 2023
      = ["F", "E", "D", "C", "B", "A"] := by decide
  refine ⟨?_, by decide, h5, h10, ?_⟩
  · unfold App.mixChartShown
    rw [hdf]
    simp [pandasSum]
  · rw [h5, h10]
    decide

/-- Claim C3 as amended: the two copies share the loader and agree on the
point lookup, the metric values, the map rows, the trend aggregation, the
scatter rows, the comparison top-10 list and the comparison rows; beyond
styling they still differ in the energy-mix chart (slice filtering and
the visibility sum) and in the ranking view (top 5 of per-(Entity, Year)
summed totals versus top 10 raw rows), as the counterexample records. -/
theorem claim_c3_amended (t : Table) (y : Int) (c : String) (r : Row) :
    App.country_row t y c = Ckpt.country_row t y c ∧
    App.metricValues t r = Ckpt.metricValues t r ∧
    App.map_data t y = Ckpt.map_data t y ∧
    App.global_trend_data t = Ckpt.global_trend_data t ∧
    App.scatter_data t y = Ckpt.scatter_data t y ∧
    App.top10_2023_entities t = Ckpt.top10_2023 t ∧
    App.comparison_rows t = Ckpt.comparison_rows t := by
  refine ⟨rfl, rfl, rfl, rfl, rfl, rfl, ?_⟩
  unfold App.comparison_rows
  have hfun : (fun r : Row => ({ r with cap := r.cap } : Row)) = fun r => r :=
    rfl
  rw [hfun, List.map_id']
  rfl

end DAV
